import Mathlib

/-!
# Account configuration validator and startup setting resolution

A shallow embedding of `cmd/docker-entrypoint/dynamodb.go` (`AccountEntry`,
`validateAccount`) and of the flag / environment handling at the top of `main`
in `cmd/docker-entrypoint/main.go`.

Conventions of the embedding:

* Go `string` is `String`, a Go slice is a `List` (a nil slice and an empty
  slice are both `[]`; the code only ever asks for `len(..) == 0`).
* `int32` and `int` are `Int`.  The code performs no arithmetic on them, only
  comparison with `0` and assignment of constants, so no wrap-around can occur;
  every statement below holds for all integers and in particular for those in
  the machine range.
* The package variable `log` (main.go line 23) is a `*logrus.Entry`.  A call of
  `log.Error` on a nil entry dereferences it and the program panics; on a usable
  entry the record goes to the log sink and the call returns.  The state of the
  variable is therefore an argument of `validateAccount`, and a call either panics
  or returns the Go pair `(AccountEntry, error)`, the error being an
  `Option String` that carries the message (`none` is a nil error).
-/

namespace VanityServer

/-! ## dynamodb.go -/

/-- AccountEntry represents an account on which to run the Lambda function. -/
structure AccountEntry where
  EntryID : String
  AccountID : String
  AllowPorts : List Int
  Regions : List String
  RoleName : String
  SessionName : String
  DurationSeconds : Int
  ExternalID : String
  TagName : String
  ExclusiveTagValues : List String
  ManagedTagValues : List String
  Description : String
  deriving DecidableEq, Repr

/-- State of the package variable `log` of type `*logrus.Entry` (main.go line 23). -/
inductive PackageLogger where
  /-- The variable holds nil, as its declaration leaves it. -/
  | unassigned
  /-- The variable points to a usable entry. -/
  | configured
  deriving DecidableEq, Repr

/-- The call `log.Error(msg)`: `none` is the nil-pointer panic of a call through a nil
entry, `some ()` is a call that wrote its record and came back. -/
def PackageLogger.Error (lg : PackageLogger) (_msg : String) : Option Unit :=
  match lg with
  | PackageLogger.unassigned => none
  | PackageLogger.configured => some ()

/-- The package variable `log` as the program leaves it: it is declared at main.go
line 23 and no statement of the package assigns it (`main` only builds the local
variable `logger`, main.go lines 128-136). -/
def log : PackageLogger := PackageLogger.unassigned

/-- What a call of `validateAccount` does: it panics, or it returns an entry together
with an error (`none` for nil). -/
inductive Outcome where
  | panic
  | returned (acct : AccountEntry) (err : Option String)
  deriving DecidableEq, Repr

/-- Message of the error returned for an empty `AccountID` (dynamodb.go line 72). -/
def errAccountID : String := "Account ID cannot be empty"

/-- Message of the error returned for empty `Regions` (dynamodb.go line 90). -/
def errRegions : String := "You must specify at least 1 region for an account"

/-- The function validateAccount checks the account to make sure values are valid and
sets defaults where necessary.  The statements follow dynamodb.go lines 69-115 one
by one, in the order of the source; `lg` is the state of the package variable `log`
at the time of the call. -/
def validateAccount (lg : PackageLogger) (account : AccountEntry) : Outcome :=
  let acct := account
  if acct.AccountID = "" then
    let msg := errAccountID
    match lg.Error msg with
    | none => Outcome.panic
    | some _ => Outcome.returned acct (some msg)
  else
    let acct := if acct.AllowPorts.length = 0 then { acct with AllowPorts := [80, 443] } else acct
    let acct :=
      if acct.Description = "" then
        { acct with Description := "Managed by UpdateSonarCloudSecurityGroups function (DO NOT MODIFY)" }
      else acct
    let acct := if acct.DurationSeconds = 0 then { acct with DurationSeconds := 1800 } else acct
    if acct.Regions.length = 0 then
      let msg := errRegions
      match lg.Error msg with
      | none => Outcome.panic
      | some _ => Outcome.returned acct (some msg)
    else
      let acct :=
        if acct.RoleName = "" then { acct with RoleName := "STS-UpdateSonarCloudSecurityGroupsRole" }
        else acct
      let acct :=
        if acct.SessionName = "" then { acct with SessionName := "UpdateSonarCloudSecurityGroupsFunction" }
        else acct
      let acct :=
        if acct.TagName = "" then
          { acct with TagName := "fn.imperva.com/UpdateSonarCloudSecurityGroups/state" }
        else acct
      let acct :=
        if acct.ManagedTagValues.length = 0 then { acct with ManagedTagValues := ["managed"] } else acct
      let acct :=
        if acct.ExclusiveTagValues.length = 0 then { acct with ExclusiveTagValues := ["exclusive"] }
        else acct
      Outcome.returned acct none

/-- The candidate of scenario A: only `AccountID` and `Regions` are set. -/
def scenarioA : AccountEntry :=
  { EntryID := "", AccountID := "123", AllowPorts := [], Regions := ["us-east-1"],
    RoleName := "", SessionName := "", DurationSeconds := 0, ExternalID := "",
    TagName := "", ExclusiveTagValues := [], ManagedTagValues := [], Description := "" }

/-- The candidate of scenario B: only `Regions` is set, `AccountID` is empty. -/
def scenarioB : AccountEntry :=
  { scenarioA with AccountID := "" }

/-- A candidate with both required fields set and a negative `DurationSeconds`. -/
def negativeDuration : AccountEntry :=
  { scenarioA with DurationSeconds := -5 }

/-- The candidate of scenario C: `AccountID` is set and every other field, `Regions`
included, is unset. -/
def onlyAccountID : AccountEntry :=
  { scenarioA with Regions := [] }

/-- The entry that comes back with the Regions error for the candidate of scenario C
when the logger is usable. -/
def onlyAccountIDReturned : AccountEntry :=
  { onlyAccountID with
    AllowPorts := [80, 443]
    Description := "Managed by UpdateSonarCloudSecurityGroups function (DO NOT MODIFY)"
    DurationSeconds := 1800 }

/-! ## main.go -/

/-- The variables bound by the `flag.String`, `flag.Int` and `flag.Bool` calls of `main`
(main.go lines 31-44), read after `flag.Parse`. -/
structure Flags where
  cloudWatchGroupName : String
  cloudWatchStreamName : String
  cloudWatchRegion : String
  cloudWatchRetentionDays : Int
  cloudWatchKmsKeyID : String
  cloudWatchTags : String
  cloudWatchBatchFrequency : String
  debugFlag : Bool
  versionFlag : Bool
  deriving DecidableEq, Repr

/-- What the command line explicitly passes: for each flag `some v` when the flag is
given with value `v`, and `none` when it is not given. -/
structure CommandLine where
  cloudwatchGroup : Option String
  cloudwatchStream : Option String
  cloudwatchRegion : Option String
  cloudwatchRetentionDays : Option Int
  cloudwatchKmsKeyId : Option String
  cloudwatchTags : Option String
  cloudwatchBatchFrequency : Option String
  debug : Option Bool
  version : Option Bool
  deriving DecidableEq, Repr

/-- The values of the flag variables after `flag.Parse` (main.go lines 31-45): the value
given on the command line, or else the default registered with the flag. -/
def flagParse (cl : CommandLine) : Flags :=
  { cloudWatchGroupName := cl.cloudwatchGroup.getD "/aws/lambda/go-vanity-server"
    cloudWatchStreamName := cl.cloudwatchStream.getD "default"
    cloudWatchRegion := cl.cloudwatchRegion.getD ""
    cloudWatchRetentionDays := cl.cloudwatchRetentionDays.getD 3
    cloudWatchKmsKeyID := cl.cloudwatchKmsKeyId.getD ""
    cloudWatchTags := cl.cloudwatchTags.getD ""
    cloudWatchBatchFrequency := cl.cloudwatchBatchFrequency.getD "0"
    debugFlag := cl.debug.getD false
    versionFlag := cl.version.getD false }

/-- The keys of the map `visitedFlags` built by `flag.Visit` (main.go lines 46-49): the
names of the flags that were set on the command line. -/
def visitedFlags (cl : CommandLine) : List String :=
  (if cl.cloudwatchGroup.isSome then ["cloudwatch-group"] else []) ++
  (if cl.cloudwatchStream.isSome then ["cloudwatch-stream"] else []) ++
  (if cl.cloudwatchRegion.isSome then ["cloudwatch-region"] else []) ++
  (if cl.cloudwatchRetentionDays.isSome then ["cloudwatch-retention-days"] else []) ++
  (if cl.cloudwatchKmsKeyId.isSome then ["cloudwatch-kms-key-id"] else []) ++
  (if cl.cloudwatchTags.isSome then ["cloudwatch-tags"] else []) ++
  (if cl.cloudwatchBatchFrequency.isSome then ["cloudwatch-batch-frequency"] else []) ++
  (if cl.debug.isSome then ["debug"] else []) ++
  (if cl.version.isSome then ["version"] else [])

/-- The block "check environment for settings" of `main` (main.go lines 57-107).
`atoi` stands for `strconv.Atoi` (`none` is its error), `toLower` for `strings.ToLower`
and `lookupEnv` for `os.LookupEnv`; `visited` holds the keys of `visitedFlags`.
`Except.error n` is `os.Exit(n)`. -/
def checkEnvironment (atoi : String → Option Int) (toLower : String → String)
    (visited : List String) (lookupEnv : String → Option String) (f : Flags) :
    Except Nat Flags := do
  let f :=
    if "cloudwatch-group" ∉ visited then
      match lookupEnv "CLOUDWATCH_GROUP" with
      | some val => { f with cloudWatchGroupName := val }
      | none => f
    else f
  let f :=
    if "cloudwatch-stream" ∉ visited then
      match lookupEnv "CLOUDWATCH_STREAM" with
      | some val => { f with cloudWatchStreamName := val }
      | none => f
    else f
  let f :=
    if "cloudwatch-region" ∉ visited then
      match lookupEnv "CLOUDWATCH_REGION" with
      | some val => { f with cloudWatchRegion := val }
      | none => f
    else f
  let f ←
    if "cloudwatch-retention-days" ∉ visited then
      match lookupEnv "CLOUDWATCH_RETENTION_DAYS" with
      | some val =>
        match atoi val with
        | none => Except.error 1
        | some days => Except.ok { f with cloudWatchRetentionDays := days }
      | none => Except.ok f
    else Except.ok f
  let f :=
    if "cloudwatch-kms-key-id" ∉ visited then
      match lookupEnv "CLOUDWATCH_KMS_KEY_ID" with
      | some val => { f with cloudWatchKmsKeyID := val }
      | none => f
    else f
  let f :=
    if "cloudwatch-tags" ∉ visited then
      match lookupEnv "CLOUDWATCH_TAGS" with
      | some val => { f with cloudWatchTags := val }
      | none => f
    else f
  let f :=
    if "cloudwatch-batch-frequency" ∉ visited then
      match lookupEnv "CLOUDWATCH_BATCH_FREQUENCY" with
      | some val => { f with cloudWatchBatchFrequency := val }
      | none => f
    else f
  let f :=
    if "debug" ∉ visited then
      match lookupEnv "DEBUG" with
      | some val =>
        let val := toLower val
        if val = "1" ∨ val = "true" ∨ val = "enable" ∨ val = "enabled" ∨ val = "yes" ∨ val = "on" then
          { f with debugFlag := true }
        else
          { f with debugFlag := false }
      | none => f
    else f
  return f

/-- The start of `main` up to the end of setting resolution (main.go lines 30-107):
parse the flags, exit with status 0 when `-version` is on, otherwise consult the
environment. -/
def mainSettings (atoi : String → Option Int) (toLower : String → String)
    (cl : CommandLine) (lookupEnv : String → Option String) : Except Nat Flags :=
  let f := flagParse cl
  let visited := visitedFlags cl
  if f.versionFlag then Except.error 0
  else checkEnvironment atoi toLower visited lookupEnv f

/-- The precedence rule in the words of the specification: explicit flag, then
environment variable, then built-in default. -/
def precedence {α : Type} (flagValue envValue : Option α) (builtin : α) : α :=
  match flagValue with
  | some v => v
  | none =>
    match envValue with
    | some v => v
    | none => builtin

/-- The reading of the `DEBUG` environment value in the words of the specification. -/
def debugEnabled (toLower : String → String) (val : String) : Bool :=
  decide (toLower val ∈ ["1", "true", "enable", "enabled", "yes", "on"])

/-- Value of an ASCII decimal digit. -/
def digitValue (c : Char) : Option Nat :=
  if '0' ≤ c ∧ c ≤ '9' then some (c.toNat - '0'.toNat) else none

/-- Reads a run of decimal digits, most significant first. -/
def readDigits : List Char → Nat → Option Nat
  | [], acc => some acc
  | c :: cs, acc =>
    match digitValue c with
    | none => none
    | some d => readDigits cs (acc * 10 + d)

/-- A model of `strconv.Atoi` of the Go standard library on a 64-bit platform: an
optional sign followed by at least one decimal digit, with the value in the range of
`int`; anything else is an error (`none`). -/
def goAtoi (s : String) : Option Int :=
  let cs := s.data
  let neg := cs.head? = some '-'
  let body := if cs.head? = some '-' ∨ cs.head? = some '+' then cs.tail else cs
  if body = [] then none
  else
    match readDigits body 0 with
    | none => none
    | some n =>
      if neg then (if n ≤ 2 ^ 63 then some (-(n : Int)) else none)
      else (if n ≤ 2 ^ 63 - 1 then some (n : Int) else none)

/-- Lower-casing of the ASCII letters, one instance of `strings.ToLower`. -/
def asciiLower (s : String) : String :=
  String.mk (s.data.map Char.toLower)

/-- A command line that passes no flag at all. -/
def noFlags : CommandLine :=
  { cloudwatchGroup := none, cloudwatchStream := none, cloudwatchRegion := none,
    cloudwatchRetentionDays := none, cloudwatchKmsKeyId := none, cloudwatchTags := none,
    cloudwatchBatchFrequency := none, debug := none, version := none }

/-- An environment in which only `CLOUDWATCH_GROUP` and `CLOUDWATCH_RETENTION_DAYS` are
set, the latter to a text that is not a number. -/
def badDaysEnv (name : String) : Option String :=
  if name = "CLOUDWATCH_GROUP" then some "my-group"
  else if name = "CLOUDWATCH_RETENTION_DAYS" then some "abc"
  else none

/-- An environment that sets a group, a retention period and a debug switch. -/
def sampleEnv (name : String) : Option String :=
  if name = "CLOUDWATCH_GROUP" then some "env-group"
  else if name = "CLOUDWATCH_RETENTION_DAYS" then some "14"
  else if name = "DEBUG" then some "YES"
  else none

/-- A command line that passes `-cloudwatch-group cli-group` only. -/
def groupOnly : CommandLine :=
  { noFlags with cloudwatchGroup := some "cli-group" }

/-! ## Path lemmas for `validateAccount` -/

/-- The three fields that are defaulted before the `Regions` check. -/
def earlyDefaults (c : AccountEntry) : AccountEntry :=
  { c with
    AllowPorts := if c.AllowPorts.length = 0 then [80, 443] else c.AllowPorts
    Description :=
      if c.Description = "" then "Managed by UpdateSonarCloudSecurityGroups function (DO NOT MODIFY)"
      else c.Description
    DurationSeconds := if c.DurationSeconds = 0 then 1800 else c.DurationSeconds }

/-- All eight optional fields defaulted, as on the successful path. -/
def allDefaults (c : AccountEntry) : AccountEntry :=
  { earlyDefaults c with
    RoleName := if c.RoleName = "" then "STS-UpdateSonarCloudSecurityGroupsRole" else c.RoleName
    SessionName :=
      if c.SessionName = "" then "UpdateSonarCloudSecurityGroupsFunction" else c.SessionName
    TagName :=
      if c.TagName = "" then "fn.imperva.com/UpdateSonarCloudSecurityGroups/state" else c.TagName
    ManagedTagValues := if c.ManagedTagValues.length = 0 then ["managed"] else c.ManagedTagValues
    ExclusiveTagValues :=
      if c.ExclusiveTagValues.length = 0 then ["exclusive"] else c.ExclusiveTagValues }

theorem validateAccount_of_empty_id (lg : PackageLogger) (c : AccountEntry)
    (h : c.AccountID = "") :
    validateAccount lg c =
      match lg with
      | PackageLogger.unassigned => Outcome.panic
      | PackageLogger.configured => Outcome.returned c (some errAccountID) := by
  cases lg <;> simp [validateAccount, h, PackageLogger.Error]

theorem validateAccount_of_no_regions (lg : PackageLogger) (c : AccountEntry)
    (h : c.AccountID ≠ "") (hr : c.Regions.length = 0) :
    validateAccount lg c =
      match lg with
      | PackageLogger.unassigned => Outcome.panic
      | PackageLogger.configured => Outcome.returned (earlyDefaults c) (some errRegions) := by
  obtain ⟨eid, aid, ports, regs, role, sess, dur, ext, tag, excl, man, desc⟩ := c
  simp only at h hr
  cases lg <;>
    by_cases h1 : ports.length = 0 <;> by_cases h2 : desc = "" <;> by_cases h3 : dur = 0 <;>
    simp [validateAccount, earlyDefaults, PackageLogger.Error, h, hr, h1, h2, h3]

theorem validateAccount_of_regions (lg : PackageLogger) (c : AccountEntry)
    (h : c.AccountID ≠ "") (hr : c.Regions.length ≠ 0) :
    validateAccount lg c = Outcome.returned (allDefaults c) none := by
  obtain ⟨eid, aid, ports, regs, role, sess, dur, ext, tag, excl, man, desc⟩ := c
  simp only at h hr
  by_cases h1 : ports.length = 0 <;> by_cases h2 : desc = "" <;> by_cases h3 : dur = 0 <;>
    by_cases h4 : role = "" <;> by_cases h5 : sess = "" <;> by_cases h6 : tag = "" <;>
    by_cases h7 : man.length = 0 <;> by_cases h8 : excl.length = 0 <;>
    simp [validateAccount, allDefaults, earlyDefaults, h, hr, h1, h2, h3, h4, h5, h6, h7, h8]

theorem allDefaults_allDefaults (c : AccountEntry) : allDefaults (allDefaults c) = allDefaults c := by
  obtain ⟨eid, aid, ports, regs, role, sess, dur, ext, tag, excl, man, desc⟩ := c
  by_cases h1 : ports.length = 0 <;> by_cases h2 : desc = "" <;> by_cases h3 : dur = 0 <;>
    by_cases h4 : role = "" <;> by_cases h5 : sess = "" <;> by_cases h6 : tag = "" <;>
    by_cases h7 : man.length = 0 <;> by_cases h8 : excl.length = 0 <;>
    simp [allDefaults, earlyDefaults, h1, h2, h3, h4, h5, h6, h7, h8]

/-- A call that returns a nil error went through both required-field checks. -/
theorem validateAccount_returned_nil (lg : PackageLogger) (c e : AccountEntry)
    (h : validateAccount lg c = Outcome.returned e none) :
    c.AccountID ≠ "" ∧ c.Regions.length ≠ 0 ∧ e = allDefaults c := by
  by_cases hid : c.AccountID = ""
  · rw [validateAccount_of_empty_id lg c hid] at h
    cases lg <;> simp at h
  · by_cases hreg : c.Regions.length = 0
    · rw [validateAccount_of_no_regions lg c hid hreg] at h
      cases lg <;> simp at h
    · rw [validateAccount_of_regions lg c hid hreg] at h
      exact ⟨hid, hreg, (Outcome.returned.inj h).1.symm⟩

/-! ## Claims about `validateAccount` -/

/-- C1: for every candidate with a non-empty AccountID and at least one region,
validateAccount returns no error (whatever the state of the package logger), and each
of the eight optional fields of the returned entry equals the candidate's value when
the candidate set it (non-empty string, non-empty list, non-zero number) and the exact
default otherwise. -/
theorem validateAccount_success_defaults (lg : PackageLogger) (c : AccountEntry)
    (hid : c.AccountID ≠ "") (hreg : 1 ≤ c.Regions.length) :
    ∃ e, validateAccount lg c = Outcome.returned e none ∧
    e.AllowPorts = (if c.AllowPorts.length = 0 then [80, 443] else c.AllowPorts) ∧
    e.RoleName
      = (if c.RoleName = "" then "STS-UpdateSonarCloudSecurityGroupsRole" else c.RoleName) ∧
    e.SessionName
      = (if c.SessionName = "" then "UpdateSonarCloudSecurityGroupsFunction" else c.SessionName) ∧
    e.DurationSeconds = (if c.DurationSeconds = 0 then 1800 else c.DurationSeconds) ∧
    e.TagName
      = (if c.TagName = "" then "fn.imperva.com/UpdateSonarCloudSecurityGroups/state"
          else c.TagName) ∧
    e.ExclusiveTagValues
      = (if c.ExclusiveTagValues.length = 0 then ["exclusive"] else c.ExclusiveTagValues) ∧
    e.ManagedTagValues
      = (if c.ManagedTagValues.length = 0 then ["managed"] else c.ManagedTagValues) ∧
    e.Description
      = (if c.Description = "" then
          "Managed by UpdateSonarCloudSecurityGroups function (DO NOT MODIFY)"
          else c.Description) := by
  have hr : c.Regions.length ≠ 0 := by omega
  refine ⟨allDefaults c, validateAccount_of_regions lg c hid hr, ?_⟩
  simp [allDefaults, earlyDefaults]

/-- Witness for C1 at the candidate of scenario A, with the package logger as the
program leaves it. -/
theorem validateAccount_success_defaults_witness :
    scenarioA.AccountID ≠ "" ∧ 1 ≤ scenarioA.Regions.length ∧
    ∃ e, validateAccount log scenarioA = Outcome.returned e none ∧
      e.RoleName = "STS-UpdateSonarCloudSecurityGroupsRole" ∧ e.DurationSeconds = 1800 := by
  obtain ⟨e, h, -, hrole, -, hdur, -⟩ :=
    validateAccount_success_defaults log scenarioA (by decide) (by decide)
  exact ⟨by decide, by decide, e, h, by simpa [scenarioA] using hrole,
    by simpa [scenarioA] using hdur⟩

/-- C2, evaluated on the code: for the candidate of scenario B (Regions set, AccountID
empty) and the package logger as the program leaves it, the call panics at the
`log.Error` of dynamodb.go line 73 and returns nothing, so no AccountID error is
returned; with a usable logger the same call returns the candidate together with the
error "Account ID cannot be empty". -/
theorem validateAccount_scenarioB_panics :
    scenarioB.AccountID = "" ∧
    validateAccount log scenarioB = Outcome.panic ∧
    validateAccount PackageLogger.configured scenarioB
      = Outcome.returned scenarioB (some "Account ID cannot be empty") := by
  decide

/-- C3, evaluated on the code: for the candidate of scenario C (AccountID "123", no
Regions) and the package logger as the program leaves it, the call panics at the
`log.Error` of dynamodb.go line 91 and returns nothing, so no Regions error is
returned; with a usable logger the same call returns the error
"You must specify at least 1 region for an account". -/
theorem validateAccount_scenarioC_panics :
    onlyAccountID.AccountID ≠ "" ∧ onlyAccountID.Regions.length = 0 ∧
    validateAccount log onlyAccountID = Outcome.panic ∧
    validateAccount PackageLogger.configured onlyAccountID
      = Outcome.returned onlyAccountIDReturned
          (some "You must specify at least 1 region for an account") := by
  decide

/-- C4, as stated, fails: the candidate with AccountID "123", one region and
DurationSeconds = -5 is accepted (the logger is not consulted on this path) and the
returned entry keeps DurationSeconds = -5, which is not positive. -/
theorem validateAccount_negative_duration_kept :
    ∃ e, validateAccount log negativeDuration = Outcome.returned e none ∧
      e.DurationSeconds = -5 ∧ ¬ (0 < e.DurationSeconds) :=
  ⟨allDefaults negativeDuration, by decide, by decide, by decide⟩

/-- C4, amended: in every entry returned by a successful call of validateAccount,
DurationSeconds is non-zero; it is positive whenever the candidate's DurationSeconds is
not negative, and a negative candidate value is returned unchanged. -/
theorem validateAccount_duration_nonzero (lg : PackageLogger) (c e : AccountEntry)
    (hok : validateAccount lg c = Outcome.returned e none) :
    e.DurationSeconds ≠ 0 ∧
    (0 ≤ c.DurationSeconds → 0 < e.DurationSeconds) ∧
    (c.DurationSeconds < 0 → e.DurationSeconds = c.DurationSeconds) := by
  obtain ⟨-, -, he⟩ := validateAccount_returned_nil lg c e hok
  subst he
  simp only [allDefaults, earlyDefaults]
  by_cases hd : c.DurationSeconds = 0
  · simp [hd]
  · simp only [hd, if_false]
    refine ⟨hd, fun h => by omega, ?_⟩
    simp

/-- Witness for the amended C4 at the candidate with DurationSeconds = -5. -/
theorem validateAccount_duration_nonzero_witness :
    validateAccount log negativeDuration
      = Outcome.returned (allDefaults negativeDuration) none ∧
    (allDefaults negativeDuration).DurationSeconds ≠ 0 :=
  ⟨by decide,
    (validateAccount_duration_nonzero log negativeDuration (allDefaults negativeDuration)
      (by decide)).1⟩

/-- C5: in every entry returned by a successful call of validateAccount, AccountID is
non-empty, Regions has at least one element, and AllowPorts, ExclusiveTagValues and
ManagedTagValues are each non-empty. -/
theorem validateAccount_success_invariants (lg : PackageLogger) (c e : AccountEntry)
    (hok : validateAccount lg c = Outcome.returned e none) :
    e.AccountID ≠ "" ∧
    1 ≤ e.Regions.length ∧
    1 ≤ e.AllowPorts.length ∧
    1 ≤ e.ExclusiveTagValues.length ∧
    1 ≤ e.ManagedTagValues.length := by
  obtain ⟨hid, hreg, he⟩ := validateAccount_returned_nil lg c e hok
  subst he
  simp only [allDefaults, earlyDefaults]
  refine ⟨hid, by omega, ?_, ?_, ?_⟩
  · by_cases h : c.AllowPorts.length = 0
    · simp [h]
    · simp only [h, if_false]; omega
  · by_cases h : c.ExclusiveTagValues.length = 0
    · simp [h]
    · simp only [h, if_false]; omega
  · by_cases h : c.ManagedTagValues.length = 0
    · simp [h]
    · simp only [h, if_false]; omega

/-- Witness for C5 at the candidate of scenario A. -/
theorem validateAccount_success_invariants_witness :
    validateAccount log scenarioA = Outcome.returned (allDefaults scenarioA) none ∧
    1 ≤ (allDefaults scenarioA).AllowPorts.length :=
  ⟨by decide,
    (validateAccount_success_invariants log scenarioA (allDefaults scenarioA)
      (by decide)).2.2.1⟩

/-- C6: idempotence of validateAccount: whenever validateAccount succeeds on a candidate
c with entry e, validateAccount succeeds on e as well and returns e itself (whatever
the state of the package logger at either call). -/
theorem validateAccount_idempotent (lg lg2 : PackageLogger) (c e : AccountEntry)
    (h : validateAccount lg c = Outcome.returned e none) :
    validateAccount lg2 e = Outcome.returned e none := by
  obtain ⟨hid, hreg, he⟩ := validateAccount_returned_nil lg c e h
  subst he
  have hid2 : (allDefaults c).AccountID ≠ "" := hid
  have hreg2 : (allDefaults c).Regions.length ≠ 0 := hreg
  rw [validateAccount_of_regions lg2 (allDefaults c) hid2 hreg2, allDefaults_allDefaults]

/-- Witness for C6 at the candidate of scenario A and its validated entry. -/
theorem validateAccount_idempotent_witness :
    validateAccount log scenarioA = Outcome.returned (allDefaults scenarioA) none ∧
    validateAccount log (allDefaults scenarioA)
      = Outcome.returned (allDefaults scenarioA) none :=
  ⟨by decide,
    validateAccount_idempotent log log scenarioA (allDefaults scenarioA) (by decide)⟩

/-- C7, as stated, fails: for the candidate with AccountID "123" and every other field
unset, the check that fails is the Regions one, and in no state of the package logger
does the call return the candidate itself alongside an error.  With a usable logger the
entry returned with the Regions error already carries the defaults of AllowPorts,
Description and DurationSeconds, which run before the Regions check, so it differs from
the candidate; with the logger as the program leaves it nothing is returned. -/
theorem validateAccount_regions_failure_defaults_applied :
    onlyAccountID.AccountID ≠ "" ∧ onlyAccountID.Regions.length = 0 ∧
    validateAccount PackageLogger.configured onlyAccountID
      = Outcome.returned onlyAccountIDReturned
          (some "You must specify at least 1 region for an account") ∧
    onlyAccountID.AllowPorts = [] ∧ onlyAccountIDReturned.AllowPorts = [80, 443] ∧
    onlyAccountID.DurationSeconds = 0 ∧ onlyAccountIDReturned.DurationSeconds = 1800 ∧
    onlyAccountID.Description = "" ∧
    onlyAccountIDReturned.Description
      = "Managed by UpdateSonarCloudSecurityGroups function (DO NOT MODIFY)" ∧
    onlyAccountIDReturned ≠ onlyAccountID ∧
    validateAccount log onlyAccountID = Outcome.panic ∧
    (∀ lg err, validateAccount lg onlyAccountID ≠ Outcome.returned onlyAccountID err) := by
  refine ⟨by decide, by decide, by decide, by decide, by decide, by decide, by decide,
    by decide, by decide, by decide, by decide, ?_⟩
  intro lg err h
  cases lg
  · have h1 : validateAccount PackageLogger.unassigned onlyAccountID = Outcome.panic := by
      decide
    rw [h1] at h
    cases h
  · have h2 : validateAccount PackageLogger.configured onlyAccountID
        = Outcome.returned onlyAccountIDReturned (some errRegions) := by decide
    rw [h2] at h
    exact absurd (Outcome.returned.inj h).1 (by decide)

/-- C7, amended: whenever validateAccount returns an entry alongside an error, the
entry equals the candidate in every field if AccountID is empty; if AccountID is
non-empty (the failure is then the Regions one) it equals the candidate in every field
except AllowPorts, Description and DurationSeconds, each of which holds the candidate's
value when set and its default otherwise (RoleName, SessionName, TagName,
ManagedTagValues and ExclusiveTagValues are not defaulted).  With a usable package
logger every candidate that misses a required field does get an entry and an error
back. -/
theorem validateAccount_failure_entry (lg : PackageLogger) (c : AccountEntry) :
    (∀ e msg, validateAccount lg c = Outcome.returned e (some msg) →
      (c.AccountID = "" → msg = "Account ID cannot be empty" ∧ e = c) ∧
      (c.AccountID ≠ "" →
        c.Regions.length = 0 ∧
        msg = "You must specify at least 1 region for an account" ∧
        e =
          { EntryID := c.EntryID
            AccountID := c.AccountID
            AllowPorts := if c.AllowPorts.length = 0 then [80, 443] else c.AllowPorts
            Regions := c.Regions
            RoleName := c.RoleName
            SessionName := c.SessionName
            DurationSeconds := if c.DurationSeconds = 0 then 1800 else c.DurationSeconds
            ExternalID := c.ExternalID
            TagName := c.TagName
            ExclusiveTagValues := c.ExclusiveTagValues
            ManagedTagValues := c.ManagedTagValues
            Description :=
              if c.Description = "" then
                "Managed by UpdateSonarCloudSecurityGroups function (DO NOT MODIFY)"
              else c.Description })) ∧
    (lg = PackageLogger.configured →
      (c.AccountID = "" ∨ (c.AccountID ≠ "" ∧ c.Regions.length = 0)) →
      ∃ e msg, validateAccount lg c = Outcome.returned e (some msg)) := by
  constructor
  · intro e msg h
    by_cases hid : c.AccountID = ""
    · rw [validateAccount_of_empty_id lg c hid] at h
      cases lg
      · simp at h
      · obtain ⟨h1, h2⟩ := Outcome.returned.inj h
        refine ⟨fun _ => ⟨(Option.some.inj h2).symm, h1.symm⟩, fun hne => absurd hid hne⟩
    · by_cases hreg : c.Regions.length = 0
      · rw [validateAccount_of_no_regions lg c hid hreg] at h
        cases lg
        · simp at h
        · obtain ⟨h1, h2⟩ := Outcome.returned.inj h
          refine ⟨fun he => absurd he hid, fun _ => ⟨hreg, (Option.some.inj h2).symm, ?_⟩⟩
          rw [← h1]
          rfl
      · rw [validateAccount_of_regions lg c hid hreg] at h
        simp at h
  · intro hlg hfail
    subst hlg
    rcases hfail with hid | ⟨hid, hreg⟩
    · exact ⟨c, errAccountID, validateAccount_of_empty_id _ c hid⟩
    · exact ⟨earlyDefaults c, errRegions, validateAccount_of_no_regions _ c hid hreg⟩

/-- Witness for the amended C7 at the candidate with only AccountID set and a usable
logger: the call returns the Regions error and its entry carries the three defaults. -/
theorem validateAccount_failure_entry_witness :
    validateAccount PackageLogger.configured onlyAccountID
      = Outcome.returned onlyAccountIDReturned (some errRegions) ∧
    onlyAccountID.AccountID ≠ "" ∧
    onlyAccountIDReturned.AllowPorts = [80, 443] ∧
    (∃ e msg, validateAccount PackageLogger.configured onlyAccountID
      = Outcome.returned e (some msg)) := by
  have hcall : validateAccount PackageLogger.configured onlyAccountID
      = Outcome.returned onlyAccountIDReturned (some errRegions) := by decide
  have hne : onlyAccountID.AccountID ≠ "" := by decide
  have h := validateAccount_failure_entry PackageLogger.configured onlyAccountID
  have h1 := ((h.1 onlyAccountIDReturned errRegions hcall).2 hne).2.2
  exact ⟨hcall, hne, by rw [h1]; rfl, h.2 rfl (Or.inr ⟨hne, by decide⟩)⟩

/-- C8: scenario A: validateAccount applied to the candidate with AccountID "123",
Regions ["us-east-1"] and every other field unset succeeds (whatever the state of the
package logger), and the output has AllowPorts [80, 443], RoleName
"STS-UpdateSonarCloudSecurityGroupsRole", DurationSeconds 1800, TagName
"fn.imperva.com/UpdateSonarCloudSecurityGroups/state", ManagedTagValues ["managed"],
ExclusiveTagValues ["exclusive"], with AccountID and Regions as given. -/
theorem validateAccount_scenarioA (lg : PackageLogger) :
    validateAccount lg
        { EntryID := "", AccountID := "123", AllowPorts := [], Regions := ["us-east-1"],
          RoleName := "", SessionName := "", DurationSeconds := 0, ExternalID := "",
          TagName := "", ExclusiveTagValues := [], ManagedTagValues := [], Description := "" }
      = Outcome.returned
          { EntryID := "", AccountID := "123", AllowPorts := [80, 443],
            Regions := ["us-east-1"],
            RoleName := "STS-UpdateSonarCloudSecurityGroupsRole",
            SessionName := "UpdateSonarCloudSecurityGroupsFunction",
            DurationSeconds := 1800, ExternalID := "",
            TagName := "fn.imperva.com/UpdateSonarCloudSecurityGroups/state",
            ExclusiveTagValues := ["exclusive"], ManagedTagValues := ["managed"],
            Description := "Managed by UpdateSonarCloudSecurityGroups function (DO NOT MODIFY)" }
          none := by
  cases lg <;> decide

/-- C9: frame of validateAccount: for every candidate and every state of the package
logger, whether the call succeeds or fails, the entry it returns has the candidate's
EntryID, AccountID, Regions and ExternalID; and the call does return an entry whenever
the logger is usable or both required fields are set. -/
theorem validateAccount_frame (lg : PackageLogger) (c : AccountEntry) :
    (∀ e err, validateAccount lg c = Outcome.returned e err →
      e.EntryID = c.EntryID ∧ e.AccountID = c.AccountID ∧
      e.Regions = c.Regions ∧ e.ExternalID = c.ExternalID) ∧
    (lg = PackageLogger.configured ∨ (c.AccountID ≠ "" ∧ 1 ≤ c.Regions.length) →
      ∃ e err, validateAccount lg c = Outcome.returned e err) := by
  constructor
  · intro e err h
    by_cases hid : c.AccountID = ""
    · rw [validateAccount_of_empty_id lg c hid] at h
      cases lg
      · simp at h
      · obtain ⟨h1, -⟩ := Outcome.returned.inj h
        subst h1
        exact ⟨rfl, rfl, rfl, rfl⟩
    · by_cases hreg : c.Regions.length = 0
      · rw [validateAccount_of_no_regions lg c hid hreg] at h
        cases lg
        · simp at h
        · obtain ⟨h1, -⟩ := Outcome.returned.inj h
          subst h1
          exact ⟨rfl, rfl, rfl, rfl⟩
      · rw [validateAccount_of_regions lg c hid hreg] at h
        obtain ⟨h1, -⟩ := Outcome.returned.inj h
        subst h1
        exact ⟨rfl, rfl, rfl, rfl⟩
  · intro h
    by_cases hid : c.AccountID = ""
    · rcases h with h | ⟨h, -⟩
      · subst h
        exact ⟨c, some errAccountID, validateAccount_of_empty_id _ c hid⟩
      · exact absurd hid h
    · by_cases hreg : c.Regions.length = 0
      · rcases h with h | ⟨-, h⟩
        · subst h
          exact ⟨earlyDefaults c, some errRegions, validateAccount_of_no_regions _ c hid hreg⟩
        · omega
      · exact ⟨allDefaults c, none, validateAccount_of_regions lg c hid hreg⟩

/-- Witness for C9 at the candidate of scenario C with a usable logger: the failing
call returns an entry, and its four frame fields are the candidate's. -/
theorem validateAccount_frame_witness :
    validateAccount PackageLogger.configured onlyAccountID
      = Outcome.returned onlyAccountIDReturned (some errRegions) ∧
    onlyAccountIDReturned.Regions = onlyAccountID.Regions ∧
    (∃ e err, validateAccount PackageLogger.configured onlyAccountID
      = Outcome.returned e err) := by
  have hcall : validateAccount PackageLogger.configured onlyAccountID
      = Outcome.returned onlyAccountIDReturned (some errRegions) := by decide
  have h := validateAccount_frame PackageLogger.configured onlyAccountID
  exact ⟨hcall, (h.1 _ _ hcall).2.2.1, h.2 (Or.inl rfl)⟩

/-! ## Setting resolution in `main` -/

theorem not_mem_visitedFlags (cl : CommandLine) :
    ("cloudwatch-group" ∉ visitedFlags cl ↔ cl.cloudwatchGroup = none) ∧
    ("cloudwatch-stream" ∉ visitedFlags cl ↔ cl.cloudwatchStream = none) ∧
    ("cloudwatch-region" ∉ visitedFlags cl ↔ cl.cloudwatchRegion = none) ∧
    ("cloudwatch-retention-days" ∉ visitedFlags cl ↔ cl.cloudwatchRetentionDays = none) ∧
    ("cloudwatch-kms-key-id" ∉ visitedFlags cl ↔ cl.cloudwatchKmsKeyId = none) ∧
    ("cloudwatch-tags" ∉ visitedFlags cl ↔ cl.cloudwatchTags = none) ∧
    ("cloudwatch-batch-frequency" ∉ visitedFlags cl ↔ cl.cloudwatchBatchFrequency = none) ∧
    ("debug" ∉ visitedFlags cl ↔ cl.debug = none) := by
  obtain ⟨g, s, r, d, k, t, b, dbg, v⟩ := cl
  simp only [visitedFlags]
  refine ⟨?_, ?_, ?_, ?_, ?_, ?_, ?_, ?_⟩
  · cases g <;> simp
  · cases s <;> simp
  · cases r <;> simp
  · cases d <;> simp
  · cases k <;> simp
  · cases t <;> simp
  · cases b <;> simp
  · cases dbg <;> simp

theorem checkEnvironment_ok (atoi : String → Option Int) (toLower : String → String)
    (visited : List String) (env : String → Option String) (f : Flags)
    (hdays : "cloudwatch-retention-days" ∉ visited →
      ∀ val, env "CLOUDWATCH_RETENTION_DAYS" = some val → ∃ days, atoi val = some days) :
    checkEnvironment atoi toLower visited env f = Except.ok
      { cloudWatchGroupName :=
          if "cloudwatch-group" ∉ visited then
            (env "CLOUDWATCH_GROUP").getD f.cloudWatchGroupName
          else f.cloudWatchGroupName
        cloudWatchStreamName :=
          if "cloudwatch-stream" ∉ visited then
            (env "CLOUDWATCH_STREAM").getD f.cloudWatchStreamName
          else f.cloudWatchStreamName
        cloudWatchRegion :=
          if "cloudwatch-region" ∉ visited then
            (env "CLOUDWATCH_REGION").getD f.cloudWatchRegion
          else f.cloudWatchRegion
        cloudWatchRetentionDays :=
          if "cloudwatch-retention-days" ∉ visited then
            ((env "CLOUDWATCH_RETENTION_DAYS").bind atoi).getD f.cloudWatchRetentionDays
          else f.cloudWatchRetentionDays
        cloudWatchKmsKeyID :=
          if "cloudwatch-kms-key-id" ∉ visited then
            (env "CLOUDWATCH_KMS_KEY_ID").getD f.cloudWatchKmsKeyID
          else f.cloudWatchKmsKeyID
        cloudWatchTags :=
          if "cloudwatch-tags" ∉ visited then
            (env "CLOUDWATCH_TAGS").getD f.cloudWatchTags
          else f.cloudWatchTags
        cloudWatchBatchFrequency :=
          if "cloudwatch-batch-frequency" ∉ visited then
            (env "CLOUDWATCH_BATCH_FREQUENCY").getD f.cloudWatchBatchFrequency
          else f.cloudWatchBatchFrequency
        debugFlag :=
          if "debug" ∉ visited then
            ((env "DEBUG").map (debugEnabled toLower)).getD f.debugFlag
          else f.debugFlag
        versionFlag := f.versionFlag } := by
  unfold checkEnvironment
  generalize env "CLOUDWATCH_GROUP" = eg
  generalize env "CLOUDWATCH_STREAM" = es
  generalize env "CLOUDWATCH_REGION" = er
  generalize env "CLOUDWATCH_RETENTION_DAYS" = ed at hdays ⊢
  generalize env "CLOUDWATCH_KMS_KEY_ID" = ek
  generalize env "CLOUDWATCH_TAGS" = et
  generalize env "CLOUDWATCH_BATCH_FREQUENCY" = eb
  generalize env "DEBUG" = edbg
  lift_lets
  intro f1 f2 f3 jp
  have hf1 : f1 = { f with cloudWatchGroupName :=
      if "cloudwatch-group" ∉ visited then eg.getD f.cloudWatchGroupName
      else f.cloudWatchGroupName } := by
    by_cases c : "cloudwatch-group" ∈ visited <;> cases eg <;> simp [f1, c]
  have hf2 : f2 = { f1 with cloudWatchStreamName :=
      if "cloudwatch-stream" ∉ visited then es.getD f1.cloudWatchStreamName
      else f1.cloudWatchStreamName } := by
    by_cases c : "cloudwatch-stream" ∈ visited <;> cases es <;> simp [f2, c]
  have hf3 : f3 = { f2 with cloudWatchRegion :=
      if "cloudwatch-region" ∉ visited then er.getD f2.cloudWatchRegion
      else f2.cloudWatchRegion } := by
    by_cases c : "cloudwatch-region" ∈ visited <;> cases er <;> simp [f3, c]
  have hjp : ∀ y : Flags, jp y = Except.ok
      { y with
        cloudWatchKmsKeyID :=
          if "cloudwatch-kms-key-id" ∉ visited then ek.getD y.cloudWatchKmsKeyID
          else y.cloudWatchKmsKeyID
        cloudWatchTags :=
          if "cloudwatch-tags" ∉ visited then et.getD y.cloudWatchTags else y.cloudWatchTags
        cloudWatchBatchFrequency :=
          if "cloudwatch-batch-frequency" ∉ visited then eb.getD y.cloudWatchBatchFrequency
          else y.cloudWatchBatchFrequency
        debugFlag :=
          if "debug" ∉ visited then (edbg.map (debugEnabled toLower)).getD y.debugFlag
          else y.debugFlag } := by
    intro y
    show jp y = _
    unfold jp
    lift_lets
    intro f5 f6 f7 f8
    have hf5 : f5 = { y with cloudWatchKmsKeyID :=
        if "cloudwatch-kms-key-id" ∉ visited then ek.getD y.cloudWatchKmsKeyID
        else y.cloudWatchKmsKeyID } := by
      by_cases c : "cloudwatch-kms-key-id" ∈ visited <;> cases ek <;> simp [f5, c]
    have hf6 : f6 = { f5 with cloudWatchTags :=
        if "cloudwatch-tags" ∉ visited then et.getD f5.cloudWatchTags
        else f5.cloudWatchTags } := by
      by_cases c : "cloudwatch-tags" ∈ visited <;> cases et <;> simp [f6, c]
    have hf7 : f7 = { f6 with cloudWatchBatchFrequency :=
        if "cloudwatch-batch-frequency" ∉ visited then eb.getD f6.cloudWatchBatchFrequency
        else f6.cloudWatchBatchFrequency } := by
      by_cases c : "cloudwatch-batch-frequency" ∈ visited <;> cases eb <;> simp [f7, c]
    have hf8 : f8 = { f7 with debugFlag :=
        if "debug" ∉ visited then (edbg.map (debugEnabled toLower)).getD f7.debugFlag
        else f7.debugFlag } := by
      by_cases c : "debug" ∈ visited
      · simp [f8, c]
      · cases edbg with
        | none => simp [f8, c]
        | some v =>
          by_cases hv : toLower v = "1" ∨ toLower v = "true" ∨ toLower v = "enable" ∨
              toLower v = "enabled" ∨ toLower v = "yes" ∨ toLower v = "on"
          · simp [f8, c, hv, debugEnabled]
          · simp [f8, c, hv, debugEnabled]
    clear_value f5 f6 f7 f8
    subst hf5 hf6 hf7 hf8
    rfl
  clear_value f1 f2 f3 jp
  subst hf1 hf2 hf3
  by_cases c : "cloudwatch-retention-days" ∈ visited
  · simp only [c, not_true_eq_false, if_false]
    show jp _ = _
    rw [hjp]
  · cases ed with
    | none =>
      simp only [c, not_false_eq_true, if_true]
      show jp _ = _
      rw [hjp]
      simp
    | some v =>
      obtain ⟨days, hd⟩ := hdays c v rfl
      simp only [c, not_false_eq_true, if_true, hd]
      show jp _ = _
      rw [hjp]
      simp [hd]

theorem checkEnvironment_exit (atoi : String → Option Int) (toLower : String → String)
    (visited : List String) (env : String → Option String) (f : Flags) (val : String)
    (hv : "cloudwatch-retention-days" ∉ visited)
    (he : env "CLOUDWATCH_RETENTION_DAYS" = some val) (ha : atoi val = none) :
    checkEnvironment atoi toLower visited env f = Except.error 1 := by
  unfold checkEnvironment
  lift_lets
  intro f1 f2 f3 jp
  simp only [hv, not_false_eq_true, if_true, he, ha]
  rfl

theorem goAtoi_samples :
    goAtoi "abc" = none ∧ goAtoi "" = none ∧ goAtoi "+" = none ∧ goAtoi "1_0" = none ∧
    goAtoi "14" = some 14 ∧ goAtoi "-14" = some (-14) ∧ goAtoi "+7" = some 7 ∧
    goAtoi "9223372036854775807" = some 9223372036854775807 ∧
    goAtoi "9223372036854775808" = none := by
  decide

/-- C10, as stated, fails: with no flag on the command line, CLOUDWATCH_GROUP set to
"my-group" and CLOUDWATCH_RETENTION_DAYS set to "abc", main does not use the value of
either variable: it leaves with exit status 1 and resolves no setting. -/
theorem mainSettings_bad_retention_days_exits :
    noFlags.cloudwatchGroup = none ∧ noFlags.cloudwatchRetentionDays = none ∧
    badDaysEnv "CLOUDWATCH_GROUP" = some "my-group" ∧
    badDaysEnv "CLOUDWATCH_RETENTION_DAYS" = some "abc" ∧
    mainSettings goAtoi asciiLower noFlags badDaysEnv = Except.error 1 ∧
    ¬ ∃ r, mainSettings goAtoi asciiLower noFlags badDaysEnv = Except.ok r := by
  have h : mainSettings goAtoi asciiLower noFlags badDaysEnv = Except.error 1 := rfl
  refine ⟨rfl, rfl, rfl, rfl, h, ?_⟩
  rintro ⟨r, hr⟩
  rw [h] at hr
  cases hr

/-- C10, amended: when main reaches setting resolution (the version flag is not on),
each of the eight settings follows the precedence explicit flag, then environment
variable, then built-in default, where the value of CLOUDWATCH_RETENTION_DAYS is
converted by Atoi and the value of DEBUG reads as true exactly when its lower-cased
form is one of "1", "true", "enable", "enabled", "yes", "on" - provided that
CLOUDWATCH_RETENTION_DAYS, when it is consulted (flag not passed, variable set), is
accepted by Atoi; when it is consulted and rejected, main exits with status 1 and
resolves no setting. -/
theorem mainSettings_precedence (atoi : String → Option Int) (toLower : String → String)
    (cl : CommandLine) (env : String → Option String)
    (hver : cl.version = none ∨ cl.version = some false) :
    ((cl.cloudwatchRetentionDays = none →
        ∀ val, env "CLOUDWATCH_RETENTION_DAYS" = some val → ∃ days, atoi val = some days) →
      mainSettings atoi toLower cl env = Except.ok
        { cloudWatchGroupName :=
            precedence cl.cloudwatchGroup (env "CLOUDWATCH_GROUP") "/aws/lambda/go-vanity-server"
          cloudWatchStreamName :=
            precedence cl.cloudwatchStream (env "CLOUDWATCH_STREAM") "default"
          cloudWatchRegion := precedence cl.cloudwatchRegion (env "CLOUDWATCH_REGION") ""
          cloudWatchRetentionDays :=
            precedence cl.cloudwatchRetentionDays
              ((env "CLOUDWATCH_RETENTION_DAYS").bind atoi) 3
          cloudWatchKmsKeyID :=
            precedence cl.cloudwatchKmsKeyId (env "CLOUDWATCH_KMS_KEY_ID") ""
          cloudWatchTags := precedence cl.cloudwatchTags (env "CLOUDWATCH_TAGS") ""
          cloudWatchBatchFrequency :=
            precedence cl.cloudwatchBatchFrequency (env "CLOUDWATCH_BATCH_FREQUENCY") "0"
          debugFlag := precedence cl.debug ((env "DEBUG").map (debugEnabled toLower)) false
          versionFlag := false }) ∧
    (cl.cloudwatchRetentionDays = none →
      ∀ val, env "CLOUDWATCH_RETENTION_DAYS" = some val → atoi val = none →
        mainSettings atoi toLower cl env = Except.error 1) := by
  obtain ⟨h1, h2, h3, h4, h5, h6, h7, h8⟩ := not_mem_visitedFlags cl
  have hv : (flagParse cl).versionFlag = false := by
    rcases hver with h | h <;> simp [flagParse, h]
  constructor
  · intro hdays
    have hd : "cloudwatch-retention-days" ∉ visitedFlags cl →
        ∀ val, env "CLOUDWATCH_RETENTION_DAYS" = some val → ∃ days, atoi val = some days :=
      fun h => hdays (h4.mp h)
    unfold mainSettings
    simp only [hv, Bool.false_eq_true, if_false]
    rw [checkEnvironment_ok atoi toLower (visitedFlags cl) env (flagParse cl) hd]
    simp only [h1, h2, h3, h4, h5, h6, h7, h8, hv]
    obtain ⟨g, s, r, d, k, t, b, dbg, v⟩ := cl
    simp only [flagParse, Except.ok.injEq, Flags.mk.injEq, and_true]
    generalize env "CLOUDWATCH_GROUP" = eg
    generalize env "CLOUDWATCH_STREAM" = es
    generalize env "CLOUDWATCH_REGION" = er
    generalize (env "CLOUDWATCH_RETENTION_DAYS").bind atoi = ed
    generalize env "CLOUDWATCH_KMS_KEY_ID" = ek
    generalize env "CLOUDWATCH_TAGS" = et
    generalize env "CLOUDWATCH_BATCH_FREQUENCY" = eb
    generalize (env "DEBUG").map (debugEnabled toLower) = edbg
    refine ⟨?_, ?_, ?_, ?_, ?_, ?_, ?_, ?_⟩
    · cases g <;> cases eg <;> simp [precedence]
    · cases s <;> cases es <;> simp [precedence]
    · cases r <;> cases er <;> simp [precedence]
    · cases d <;> cases ed <;> simp [precedence]
    · cases k <;> cases ek <;> simp [precedence]
    · cases t <;> cases et <;> simp [precedence]
    · cases b <;> cases eb <;> simp [precedence]
    · cases dbg <;> cases edbg <;> simp [precedence]
  · intro hflag val he ha
    unfold mainSettings
    simp only [hv, Bool.false_eq_true, if_false]
    exact checkEnvironment_exit atoi toLower (visitedFlags cl) env (flagParse cl) val
      (h4.mpr hflag) he ha

/-- Witness for the amended C10: the group is passed as a flag and also set in the
environment, the retention period and the debug switch come from the environment. -/
theorem mainSettings_precedence_witness :
    (groupOnly.version = none ∨ groupOnly.version = some false) ∧
    mainSettings goAtoi asciiLower groupOnly sampleEnv = Except.ok
      { cloudWatchGroupName := "cli-group", cloudWatchStreamName := "default",
        cloudWatchRegion := "", cloudWatchRetentionDays := 14, cloudWatchKmsKeyID := "",
        cloudWatchTags := "", cloudWatchBatchFrequency := "0", debugFlag := true,
        versionFlag := false } := by
  refine ⟨Or.inl rfl, ?_⟩
  have h := (mainSettings_precedence goAtoi asciiLower groupOnly sampleEnv (Or.inl rfl)).1
    (fun _ val hval => by
      have hv : val = "14" := by
        have : sampleEnv "CLOUDWATCH_RETENTION_DAYS" = some "14" := rfl
        rw [this] at hval
        exact (Option.some.inj hval).symm
      subst hv
      exact ⟨14, by decide⟩)
  rw [h]
  rfl

end VanityServer
